import Mathlib

/-!
Shallow embedding of the harmonic-mcp-server tool dispatcher and API client.

The repository contains three server variants:
* `src/src/harmonic-server.js`   — embedded below in namespace `HS`
  (apikey carried as a query parameter, 401/403 classified distinctly,
  six tools including the POST company-by-domain lookup);
* `src/src/server-with-state.js` — embedded below in namespace `SW`
  (apikey carried as a header, diagnostic `harmonic_test_connection` probe);
* the standalone/TypeScript variant (`dist/standalone/index.js` source and
  `src/harmonic-mcp.ts`) — its error classification is embedded in
  namespace `Standalone`.

JavaScript dynamics that the claims depend on are modelled explicitly:
argument bags are partial maps to JS values, `undefined` is the absent
case of `Option`, truthiness follows JS (empty string and 0 are falsy),
and `URLSearchParams` / template-literal stringification turns `undefined`
into the string "undefined".
-/

/-- A JavaScript argument value as it appears in a tool-call argument bag. -/
inductive JSVal where
  | str (s : String)
  | num (n : Int)
deriving DecidableEq, Repr

/-- Argument bag of a tool invocation: string keys to JS values; a key that is
absent destructures to `undefined`, modelled as `none`. -/
abbrev Args := List (String × JSVal)

/-- JS truthiness of a possibly-undefined value: `undefined`, `""` and `0` are
falsy, everything else here is truthy. -/
def jsTruthy : Option JSVal → Bool
  | none => false
  | some (JSVal.str s) => !(s == "")
  | some (JSVal.num n) => !(n == 0)

/-- Stringification applied by `URLSearchParams` and template literals:
`undefined` becomes "undefined", numbers print in decimal. -/
def jsToString : Option JSVal → String
  | none => "undefined"
  | some (JSVal.str s) => s
  | some (JSVal.num n) => toString n

/-- Uppercase hexadecimal digit for percent-encoding. -/
def hexDigit (n : Nat) : Char :=
  if n < 10 then Char.ofNat (48 + n) else Char.ofNat (55 + n)

/-- `%XX` escape for one byte. -/
def percentByte (b : Nat) : String :=
  String.mk [Char.ofNat 37, hexDigit (b / 16), hexDigit (b % 16)]

/-- UTF-8 bytes of one character (as natural numbers). -/
def utf8Bytes (c : Char) : List Nat :=
  let n := c.toNat
  if n < 128 then [n]
  else if n < 2048 then [192 + n / 64, 128 + n % 64]
  else if n < 65536 then [224 + n / 4096, 128 + (n / 64) % 64, 128 + n % 64]
  else [240 + n / 262144, 128 + (n / 4096) % 64, 128 + (n / 64) % 64, 128 + n % 64]

/-- Characters `URLSearchParams` serialization leaves unescaped
(application/x-www-form-urlencoded): ASCII alphanumerics and `*-._`. -/
def formUnreserved (c : Char) : Bool :=
  c.isAlphanum && c.toNat < 128 || c == Char.ofNat 42 || c == Char.ofNat 45 ||
    c == Char.ofNat 46 || c == Char.ofNat 95

/-- One character under `URLSearchParams` percent-encoding (space becomes `+`). -/
def formEncodeChar (c : Char) : String :=
  if formUnreserved c then String.singleton c
  else if c == Char.ofNat 32 then "+"
  else String.join ((utf8Bytes c).map percentByte)

/-- `URLSearchParams` percent-encoding of a full string. -/
def formEncode (s : String) : String :=
  String.join (s.data.map formEncodeChar)

/-- Characters `encodeURIComponent` leaves unescaped: ASCII alphanumerics and
`-_.!~*'()`. -/
def uriUnreserved (c : Char) : Bool :=
  c.isAlphanum && c.toNat < 128 || c == Char.ofNat 45 || c == Char.ofNat 95 ||
    c == Char.ofNat 46 || c == Char.ofNat 33 || c == Char.ofNat 126 ||
    c == Char.ofNat 42 || c == Char.ofNat 39 || c == Char.ofNat 40 ||
    c == Char.ofNat 41

/-- `encodeURIComponent` of one character. -/
def uriEncodeChar (c : Char) : String :=
  if uriUnreserved c then String.singleton c
  else String.join ((utf8Bytes c).map percentByte)

/-- JavaScript `encodeURIComponent`. -/
def encodeURIComponent (s : String) : String :=
  String.join (s.data.map uriEncodeChar)

/-- `URLSearchParams.toString()`: `k=v` pairs joined with `&`, both sides
percent-encoded. -/
def renderParams (ps : List (String × String)) : String :=
  String.intercalate "&" (ps.map fun p => formEncode p.1 ++ "=" ++ formEncode p.2)

/-- An outbound HTTP request descriptor as constructed by a client variant. -/
structure Request where
  method : String
  endpoint : String
  queryParams : List (String × String)
  headers : List (String × String)
  body : Option String
deriving DecidableEq, Repr

/-- Outcome of one outbound HTTP call, supplied by an oracle standing for the
upstream API / network. -/
inductive HttpOutcome where
  | ok (data : String)
  | httpError (status : Nat) (body : String)
  | networkError (msg : String)
deriving DecidableEq, Repr

/-- The upstream world: what each concrete request would produce. -/
abbrev HttpOracle := Request → HttpOutcome

/-- An oracle whose every call succeeds with an empty JSON object. -/
def constOkOracle : HttpOracle := fun _ => HttpOutcome.ok "\x7b\x7d"

/-- An oracle whose every call fails at the network level. -/
def networkFailOracle : HttpOracle := fun _ => HttpOutcome.networkError "boom"

/-- MCP SDK error codes used (or available) in this codebase.
`invalidParams` is the SDK's validation-error code; the dispatchers never
raise it. -/
inductive ErrorCode where
  | invalidRequest
  | methodNotFound
  | internalError
  | invalidParams
deriving DecidableEq, Repr

/-- A structured MCP error surfaced to the host. -/
structure McpError where
  code : ErrorCode
  message : String
deriving DecidableEq, Repr

deriving instance DecidableEq for Except

/-- Result of handling one tool invocation: the credential slot afterwards,
the outbound HTTP requests issued (in order), the client-layer debug log lines
that mention request/credential material, and the outcome surfaced to the
host. -/
structure DispatchResult where
  newState : Option String
  requests : List Request
  logs : List String
  outcome : Except McpError String
deriving DecidableEq, Repr

/-- The `McpError` thrown by every data operation when no client is set. -/
def apiKeyNotSetError : McpError :=
  ⟨ErrorCode.invalidRequest,
   "Harmonic API key not set. Please use harmonic_set_api_key first."⟩

namespace HS

/-- Base URL of `harmonic-server.js`. -/
def HARMONIC_API_BASE : String := "https://api.harmonic.ai"

/-- Headers set by `HS.makeRequest` (the credential is not among them: this
variant carries it as the `apikey` query parameter). -/
def hsHeaders : List (String × String) :=
  [("accept", "application/json"), ("Content-Type", "application/json")]

/-- Error message chosen by `makeRequest` for a non-2xx upstream status
(`harmonic-server.js` lines 50–56): 403 and 401 get dedicated human-readable
causes, everything else the generic template. -/
def classifyStatus (status : Nat) (errorText : String) : String :=
  if status == 403 then
    "Authentication failed (403). Please check your API key. Response: " ++ errorText
  else if status == 401 then
    "Unauthorized (401). API key may be invalid or expired. Response: " ++ errorText
  else
    "Harmonic API error: " ++ toString status ++ " - " ++ errorText

/-- `HarmonicClient.makeRequest` of `harmonic-server.js`: appends the apikey to
the query parameters, never sets a body, logs the full request URL, and wraps
every failure (HTTP or network) in "Failed to make Harmonic API request: ...".
Returns the request issued, the log lines, and the result. -/
def makeRequest (key : String) (endpoint : String) (method : String)
    (queryParams : List (String × String)) (http : HttpOracle) :
    Request × List String × Except String String :=
  let params := queryParams ++ [("apikey", key)]
  let req : Request := ⟨method, endpoint, params, hsHeaders, none⟩
  let url := HARMONIC_API_BASE ++ endpoint ++ "?" ++ renderParams params
  let urlLog := "[DEBUG] Making " ++ method ++ " request to: " ++ url
  (req, [urlLog],
   match http req with
   | HttpOutcome.ok data => Except.ok data
   | HttpOutcome.httpError s b =>
       Except.error ("Failed to make Harmonic API request: " ++ classifyStatus s b)
   | HttpOutcome.networkError m =>
       Except.error ("Failed to make Harmonic API request: " ++ m))

/-- Debug line printed by the `HarmonicClient` constructor: only the first 8
characters of the key. -/
def constructorLog (key : String) : String :=
  "[DEBUG] API key set: " ++ key.take 8 ++ "..."

/-- Shared shape of the five data-operation cases of the dispatcher: guard on
the credential slot, run the client call, wrap a client failure as an
`internalError` in the catch block. -/
def runOp (client : Option String) (endpoint : String) (method : String)
    (queryParams : List (String × String)) (http : HttpOracle) : DispatchResult :=
  match client with
  | none => ⟨none, [], [], Except.error apiKeyNotSetError⟩
  | some key =>
      let r := makeRequest key endpoint method queryParams http
      match r.2.2 with
      | Except.ok data => ⟨some key, [r.1], r.2.1, Except.ok data⟩
      | Except.error m =>
          ⟨some key, [r.1], r.2.1,
           Except.error ⟨ErrorCode.internalError, "Tool execution failed: " ++ m⟩⟩

/-- Query parameters built by `searchCompanies` / `searchPeople`:
`{ q: query, size }` plus `cursor` only when truthy. -/
def searchParams (query : Option JSVal) (size : JSVal) (cursor : Option JSVal) :
    List (String × String) :=
  [("q", jsToString query), ("size", jsToString (some size))] ++
    (if jsTruthy cursor then [("cursor", jsToString cursor)] else [])

/-- Query parameters built by `getSavedSearchResults` / `getEmployeesFromCompany`:
`{ size }` plus `cursor` only when truthy. -/
def pagedParams (size : JSVal) (cursor : Option JSVal) : List (String × String) :=
  [("size", jsToString (some size))] ++
    (if jsTruthy cursor then [("cursor", jsToString cursor)] else [])

/-- The `CallToolRequestSchema` handler of `harmonic-server.js`: the tool
dispatcher. `client` is the `globalHarmonicClient` slot (its `apiKey` when
set). Missing arguments destructure to `undefined` and flow on unvalidated,
exactly as in the source. -/
def dispatch (client : Option String) (name : String) (args : Args)
    (http : HttpOracle) : DispatchResult :=
  if name = "harmonic_set_api_key" then
    match args.lookup "api_key" with
    | some (JSVal.str k) =>
        ⟨some k, [], [constructorLog k],
         Except.ok "Harmonic API key has been set successfully. You can now use the other Harmonic tools."⟩
    | some (JSVal.num _) =>
        -- `new HarmonicClient` throws: a number has no `.substring`; the catch
        -- block wraps the TypeError and the slot is left unchanged.
        ⟨client, [], [],
         Except.error ⟨ErrorCode.internalError,
           "Tool execution failed: " ++ "this.apiKey.substring is not a function"⟩⟩
    | none =>
        -- `api_key` is `undefined`: `.substring` on it throws a TypeError.
        ⟨client, [], [],
         Except.error ⟨ErrorCode.internalError,
           "Tool execution failed: " ++ "Cannot read properties of undefined (reading \x27substring\x27)"⟩⟩
  else if name = "harmonic_search_company_by_domain" then
    runOp client "/companies" "POST"
      [("website_domain", jsToString (args.lookup "domain"))] http
  else if name = "harmonic_search_companies" then
    runOp client "/companies" "GET"
      (searchParams (args.lookup "query")
        ((args.lookup "size").getD (JSVal.num 50)) (args.lookup "cursor")) http
  else if name = "harmonic_search_people" then
    runOp client "/people" "GET"
      (searchParams (args.lookup "query")
        ((args.lookup "size").getD (JSVal.num 50)) (args.lookup "cursor")) http
  else if name = "harmonic_get_saved_search_results" then
    runOp client ("/saved_searches:results/" ++ jsToString (args.lookup "search_id"))
      "GET"
      (pagedParams ((args.lookup "size").getD (JSVal.num 50)) (args.lookup "cursor"))
      http
  else if name = "harmonic_get_company_employees" then
    runOp client ("/companies/" ++ jsToString (args.lookup "company_id") ++ "/employees")
      "GET"
      (pagedParams ((args.lookup "size").getD (JSVal.num 50)) (args.lookup "cursor"))
      http
  else
    ⟨client, [], [], Except.error ⟨ErrorCode.methodNotFound, "Unknown tool: " ++ name⟩⟩

/-- The data operations of `harmonic-server.js` (every known tool except
`harmonic_set_api_key`). -/
def dataOps : List String :=
  ["harmonic_search_company_by_domain", "harmonic_search_companies",
   "harmonic_search_people", "harmonic_get_saved_search_results",
   "harmonic_get_company_employees"]

end HS

namespace SW

/-- Base URL of `server-with-state.js`. -/
def HARMONIC_API_BASE : String := "https://api.harmonic.ai/v1"

/-- Headers set by `SW.makeRequest`: this variant carries the raw credential in
the `apikey` header. -/
def swHeaders (key : String) : List (String × String) :=
  [("apikey", key), ("Content-Type", "application/json"),
   ("website_domain", "harmonic.ai")]

/-- `JSON.stringify(headers, null, 2)` as logged by `makeRequest`
(`server-with-state.js` line 43). -/
def headersJson (key : String) : String :=
  "\x7b\n  \"apikey\": \"" ++ key ++
    "\",\n  \"Content-Type\": \"application/json\",\n  \"website_domain\": \"harmonic.ai\"\n\x7d"

/-- Error message chosen by `makeRequest` for a non-2xx upstream status
(`server-with-state.js` lines 52–58); textually identical to the
`harmonic-server.js` classification. -/
def classifyStatus (status : Nat) (errorText : String) : String :=
  if status == 403 then
    "Authentication failed (403). Please check your API key. Response: " ++ errorText
  else if status == 401 then
    "Unauthorized (401). API key may be invalid or expired. Response: " ++ errorText
  else
    "Harmonic API error: " ++ toString status ++ " - " ++ errorText

/-- `HarmonicClient.makeRequest` of `server-with-state.js`: the URL is base +
endpoint (any query string is already embedded in the endpoint), the
credential travels in the headers, a body is attached only for non-GET
methods, and both the URL and the full headers are logged. -/
def makeRequest (key : String) (endpoint : String) (method : String)
    (body : Option String) (http : HttpOracle) :
    Request × List String × Except String String :=
  let reqBody := match body with
    | some b => if method ≠ "GET" then some b else none
    | none => none
  let req : Request := ⟨method, endpoint, [], swHeaders key, reqBody⟩
  let logs := ["[DEBUG] Making request to: " ++ HARMONIC_API_BASE ++ endpoint,
               "[DEBUG] Headers: " ++ headersJson key]
  (req, logs,
   match http req with
   | HttpOutcome.ok data => Except.ok data
   | HttpOutcome.httpError s b =>
       Except.error ("Failed to make Harmonic API request: " ++ classifyStatus s b)
   | HttpOutcome.networkError m =>
       Except.error ("Failed to make Harmonic API request: " ++ m))

/-- Debug line printed by the `HarmonicClient` constructor (first 8 characters
of the key only). -/
def constructorLog (key : String) : String :=
  "[DEBUG] API key set: " ++ key.take 8 ++ "..."

/-- Shared shape of the data-operation cases: credential guard, client call,
catch-block wrapping of client failures. -/
def runOp (client : Option String) (endpoint : String) (http : HttpOracle) :
    DispatchResult :=
  match client with
  | none => ⟨none, [], [], Except.error apiKeyNotSetError⟩
  | some key =>
      let r := makeRequest key endpoint "GET" none http
      match r.2.2 with
      | Except.ok data => ⟨some key, [r.1], r.2.1, Except.ok data⟩
      | Except.error m =>
          ⟨some key, [r.1], r.2.1,
           Except.error ⟨ErrorCode.internalError, "Tool execution failed: " ++ m⟩⟩

/-- The hard-coded candidate paths probed by `harmonic_test_connection`. -/
def testEndpoints : List String :=
  ["/companies?q=google&limit=1", "/company?q=google&limit=1",
   "/search/companies?q=google&limit=1", "/",
   "/api/v1/companies?q=google&limit=1"]

/-- One per-path record collected by the probe loop: the path, "success" or
"failed", and the response data or the error message. -/
structure ProbeRecord where
  endpoint : String
  status : String
  detail : String
deriving DecidableEq, Repr

/-- The record the probe loop pushes for one candidate path: the try/catch
around each iteration turns a failure into data instead of raising. -/
def probeRecord (key : String) (http : HttpOracle) (e : String) : ProbeRecord :=
  { endpoint := e
    status := match (makeRequest key e "GET" none http).2.2 with
      | Except.ok _ => "success"
      | Except.error _ => "failed"
    detail := match (makeRequest key e "GET" none http).2.2 with
      | Except.ok d => d
      | Except.error m => m }

/-- All records collected by the probe, one per candidate path, in order. -/
def probeRecords (key : String) (http : HttpOracle) : List ProbeRecord :=
  testEndpoints.map (probeRecord key http)

/-- The requests the probe issues, one per candidate path, in order. -/
def probeRequests (key : String) : List Request :=
  testEndpoints.map fun e => ⟨"GET", e, [], swHeaders key, none⟩

/-- Log lines of the probe's sequential `makeRequest` calls. -/
def probeLogs (key : String) (http : HttpOracle) : List String :=
  (testEndpoints.map fun e => (makeRequest key e "GET" none http).2.1).flatten

/-- Text rendering of the aggregate probe report (stands for the
`JSON.stringify(results, null, 2)` serialization of the record list, which is
abstracted at the level of one line per record). -/
def renderProbeRecords (rs : List ProbeRecord) : String :=
  String.intercalate "\n"
    (rs.map fun r => r.endpoint ++ ": " ++ r.status ++ " - " ++ r.detail)

/-- The `CallToolRequestSchema` handler of `server-with-state.js`. -/
def dispatch (client : Option String) (name : String) (args : Args)
    (http : HttpOracle) : DispatchResult :=
  if name = "harmonic_set_api_key" then
    match args.lookup "api_key" with
    | some (JSVal.str k) =>
        ⟨some k, [], [constructorLog k],
         Except.ok "Harmonic API key has been set successfully. You can now use the other Harmonic tools."⟩
    | some (JSVal.num _) =>
        ⟨client, [], [],
         Except.error ⟨ErrorCode.internalError,
           "Tool execution failed: " ++ "this.apiKey.substring is not a function"⟩⟩
    | none =>
        ⟨client, [], [],
         Except.error ⟨ErrorCode.internalError,
           "Tool execution failed: " ++ "Cannot read properties of undefined (reading \x27substring\x27)"⟩⟩
  else if name = "harmonic_search_companies" then
    runOp client
      ("/companies?q=" ++ encodeURIComponent (jsToString (args.lookup "query")) ++
        "&limit=" ++ jsToString (some ((args.lookup "limit").getD (JSVal.num 10))))
      http
  else if name = "harmonic_get_company" then
    runOp client ("/companies/" ++ encodeURIComponent (jsToString (args.lookup "domain")))
      http
  else if name = "harmonic_search_people" then
    runOp client
      ("/people?q=" ++ encodeURIComponent (jsToString (args.lookup "query")) ++
        "&limit=" ++ jsToString (some ((args.lookup "limit").getD (JSVal.num 10))))
      http
  else if name = "harmonic_get_person" then
    runOp client ("/people/" ++ encodeURIComponent (jsToString (args.lookup "person_id")))
      http
  else if name = "harmonic_test_connection" then
    match client with
    | none => ⟨none, [], [], Except.error apiKeyNotSetError⟩
    | some key =>
        ⟨some key, probeRequests key, probeLogs key http,
         Except.ok ("Connection test results:\n" ++
           renderProbeRecords (probeRecords key http))⟩
  else
    ⟨client, [], [], Except.error ⟨ErrorCode.methodNotFound, "Unknown tool: " ++ name⟩⟩

/-- The data operations of `server-with-state.js` (every known tool except
`harmonic_set_api_key`). -/
def dataOps : List String :=
  ["harmonic_search_companies", "harmonic_get_company", "harmonic_search_people",
   "harmonic_get_person", "harmonic_test_connection"]

end SW

namespace Standalone

/-- Error message built by `makeRequest` of the standalone/TypeScript variant
(`src/harmonic-mcp.ts` and the bundled `dist/standalone/index.js` source): a
single generic template for every non-2xx status, with no dedicated 401/403
branches. -/
def classifyStatus (status : Nat) (errorText : String) : String :=
  "Harmonic API error: " ++ toString status ++ " - " ++ errorText

end Standalone

/-- Digit-erasure on strings, used to compare surfaced error messages up to
the embedded numeric status code. -/
def scrubDigits (s : String) : String :=
  String.mk (s.data.filter fun c => !c.isDigit)

/-- Written from the spec's words, for comparison with the code: a status
formatter surfaces 401 and 403 as distinct human-readable causes when the two
messages still differ after the numeric status digits are erased (i.e. they
are not one generic failure message differing only in the code). -/
def classifiesAuthDistinctly (f : Nat → String → String) : Prop :=
  ∀ t, scrubDigits (f 401 t) ≠ scrubDigits (f 403 t)

/-- Erasing digits distributes over string append. -/
lemma scrubDigits_append (a b : String) :
    scrubDigits (a ++ b) = scrubDigits a ++ scrubDigits b := by
  cases a with
  | mk la =>
    cases b with
    | mk lb =>
      show scrubDigits (String.mk (la ++ lb)) = _
      simp [scrubDigits]
      rfl

/-- Length form of `scrubDigits_append`. -/
lemma scrubDigits_length_append (a b : String) :
    (scrubDigits (a ++ b)).length = (scrubDigits a).length + (scrubDigits b).length := by
  rw [scrubDigits_append, String.length_append]

/-- JS stringification of a present string value is the identity. -/
lemma jsToString_str (s : String) : jsToString (some (JSVal.str s)) = s := rfl

/-- JS stringification of the default page size. -/
lemma jsToString_num50 : jsToString (some (JSVal.num 50)) = "50" := by decide

/-- In the authenticated state, `HS.runOp` issues exactly one request: the
given endpoint/method/params with the apikey appended and no body. -/
lemma hs_runOp_requests (key endpoint method : String) (qp : List (String × String))
    (http : HttpOracle) :
    (HS.runOp (some key) endpoint method qp http).requests =
      [⟨method, endpoint, qp ++ [("apikey", key)], HS.hsHeaders, none⟩] := by
  unfold HS.runOp
  dsimp only
  split <;> rfl

/-- Every request issued by `HS.runOp` has an empty body. -/
lemma hs_runOp_body_none (client : Option String) (endpoint method : String)
    (qp : List (String × String)) (http : HttpOracle) (r : Request)
    (hr : r ∈ (HS.runOp client endpoint method qp http).requests) : r.body = none := by
  unfold HS.runOp at hr
  rcases client with _ | key
  · simp at hr
  · dsimp at hr
    split at hr <;> simp at hr <;> subst hr <;> rfl

/-- Every request issued by the `harmonic-server.js` dispatcher has an empty
body. -/
lemma hs_dispatch_body_none (st : Option String) (name : String) (args : Args)
    (http : HttpOracle) (r : Request)
    (hr : r ∈ (HS.dispatch st name args http).requests) : r.body = none := by
  unfold HS.dispatch at hr
  repeat' split at hr
  · simp at hr
  · simp at hr
  · simp at hr
  · exact hs_runOp_body_none _ _ _ _ _ _ hr
  · exact hs_runOp_body_none _ _ _ _ _ _ hr
  · exact hs_runOp_body_none _ _ _ _ _ _ hr
  · exact hs_runOp_body_none _ _ _ _ _ _ hr
  · exact hs_runOp_body_none _ _ _ _ _ _ hr
  · simp at hr

/-- Any error produced by `HS.runOp` is the precondition error or an
`internalError` with the catch-block wrap. -/
lemma hs_runOp_outcome_error (client : Option String) (endpoint method : String)
    (qp : List (String × String)) (http : HttpOracle) (e : McpError)
    (h : (HS.runOp client endpoint method qp http).outcome = Except.error e) :
    e = apiKeyNotSetError ∨
      (e.code = ErrorCode.internalError ∧
        ∃ m, e.message = "Tool execution failed: " ++ m) := by
  unfold HS.runOp at h
  rcases client with _ | key
  · simp at h
    left
    exact h.symm
  · dsimp at h
    split at h
    · simp at h
    · simp at h
      right
      subst h
      exact ⟨rfl, _, rfl⟩

/-- Any error produced by `SW.runOp` is the precondition error or an
`internalError` with the catch-block wrap. -/
lemma sw_runOp_outcome_error (client : Option String) (endpoint : String)
    (http : HttpOracle) (e : McpError)
    (h : (SW.runOp client endpoint http).outcome = Except.error e) :
    e = apiKeyNotSetError ∨
      (e.code = ErrorCode.internalError ∧
        ∃ m, e.message = "Tool execution failed: " ++ m) := by
  unfold SW.runOp at h
  rcases client with _ | key
  · simp at h
    left
    exact h.symm
  · dsimp at h
    split at h
    · simp at h
    · simp at h
      right
      subst h
      exact ⟨rfl, _, rfl⟩

/-- The probe loop records each path as either "success" or "failed". -/
lemma sw_probeRecord_status (key e : String) (http : HttpOracle) :
    (SW.probeRecord key http e).status = "success" ∨
      (SW.probeRecord key http e).status = "failed" := by
  unfold SW.probeRecord
  dsimp only
  split
  · left; rfl
  · right; rfl

/-- C1: in both dispatcher variants, every known operation other than
`harmonic_set_api_key`, invoked while the credential slot is unset, returns
the precondition error ("Harmonic API key not set...", surfaced with the
`invalidRequest` code) while issuing zero outbound HTTP requests and leaving
the slot unset. -/
theorem c1_precondition_error_when_unset (name : String) (args : Args)
    (http : HttpOracle) :
    (name ∈ HS.dataOps → HS.dispatch none name args http =
      ⟨none, [], [], Except.error apiKeyNotSetError⟩) ∧
    (name ∈ SW.dataOps → SW.dispatch none name args http =
      ⟨none, [], [], Except.error apiKeyNotSetError⟩) := by
  constructor <;> intro h <;> fin_cases h <;> rfl

/-- Witness for C1: concrete unauthenticated invocations of a data operation
in each variant. -/
theorem c1_witness :
    HS.dispatch none "harmonic_search_companies" [] constOkOracle =
      ⟨none, [], [], Except.error apiKeyNotSetError⟩ ∧
    SW.dispatch none "harmonic_test_connection" [] constOkOracle =
      ⟨none, [], [], Except.error apiKeyNotSetError⟩ :=
  ⟨(c1_precondition_error_when_unset "harmonic_search_companies" [] constOkOracle).1
      (by decide),
   (c1_precondition_error_when_unset "harmonic_test_connection" [] constOkOracle).2
      (by decide)⟩

/-- C2 (counterexample): the standalone variant collapses 401 and 403 into the
generic failure message — after erasing the embedded status digits, its 401
and 403 messages are identical, so the two statuses are not classified as
distinct human-readable causes there. -/
theorem c2_counterexample :
    scrubDigits (Standalone.classifyStatus 401 "err") =
      scrubDigits (Standalone.classifyStatus 403 "err") ∧
    ¬ classifiesAuthDistinctly Standalone.classifyStatus := by
  constructor
  · decide
  · intro h
    exact h "err" (by decide)

/-- C2 (amended): the `harmonic-server.js` and `server-with-state.js`
classifications surface 401 (invalid/expired key) and 403 (authentication
failed, check key) as distinct human-readable causes — their messages differ
by more than the status digits — and that distinction survives to the error
the dispatcher surfaces to the host. -/
theorem c2_distinct_auth_classification :
    classifiesAuthDistinctly HS.classifyStatus ∧
    classifiesAuthDistinctly SW.classifyStatus ∧
    (∀ t, HS.classifyStatus 401 t =
      "Unauthorized (401). API key may be invalid or expired. Response: " ++ t) ∧
    (∀ t, HS.classifyStatus 403 t =
      "Authentication failed (403). Please check your API key. Response: " ++ t) ∧
    (∀ key q t : String, ∃ m401 m403 : String,
      (HS.dispatch (some key) "harmonic_search_companies" [("query", JSVal.str q)]
          (fun _ => HttpOutcome.httpError 401 t)).outcome =
        Except.error ⟨ErrorCode.internalError, m401⟩ ∧
      (HS.dispatch (some key) "harmonic_search_companies" [("query", JSVal.str q)]
          (fun _ => HttpOutcome.httpError 403 t)).outcome =
        Except.error ⟨ErrorCode.internalError, m403⟩ ∧
      scrubDigits m401 ≠ scrubDigits m403) := by
  have l401 : (scrubDigits
      "Unauthorized (401). API key may be invalid or expired. Response: ").length = 62 := by
    decide
  have l403 : (scrubDigits
      "Authentication failed (403). Please check your API key. Response: ").length = 63 := by
    decide
  refine ⟨?_, ?_, fun t => rfl, fun t => rfl, ?_⟩
  · intro t h
    have h' : scrubDigits
          ("Unauthorized (401). API key may be invalid or expired. Response: " ++ t) =
        scrubDigits
          ("Authentication failed (403). Please check your API key. Response: " ++ t) := h
    have hlen := congrArg String.length h'
    rw [scrubDigits_length_append, scrubDigits_length_append] at hlen
    omega
  · intro t h
    have h' : scrubDigits
          ("Unauthorized (401). API key may be invalid or expired. Response: " ++ t) =
        scrubDigits
          ("Authentication failed (403). Please check your API key. Response: " ++ t) := h
    have hlen := congrArg String.length h'
    rw [scrubDigits_length_append, scrubDigits_length_append] at hlen
    omega
  · intro key q t
    refine ⟨"Tool execution failed: " ++ ("Failed to make Harmonic API request: " ++
        ("Unauthorized (401). API key may be invalid or expired. Response: " ++ t)),
      "Tool execution failed: " ++ ("Failed to make Harmonic API request: " ++
        ("Authentication failed (403). Please check your API key. Response: " ++ t)),
      rfl, rfl, ?_⟩
    intro he
    have hlen := congrArg String.length he
    simp only [scrubDigits_length_append] at hlen
    omega

/-- Witness for C2: the two classifications differ at the concrete body
"err". -/
theorem c2_witness :
    scrubDigits (HS.classifyStatus 401 "err") ≠
      scrubDigits (HS.classifyStatus 403 "err") :=
  c2_distinct_auth_classification.1 "err"

/-- C3: evaluation at the failing inputs. With the credential set and an empty
argument bag, `harmonic_search_companies` performs one outbound HTTP call
(with the JS string "undefined" as the query) instead of zero, and never
raises the SDK validation code; `harmonic_set_api_key` with no `api_key`
surfaces the constructor TypeError wrapped as `internalError`, not a
validation error. -/
theorem c3_missing_argument_behavior (http : HttpOracle) :
    (HS.dispatch (some "k") "harmonic_search_companies" [] http).requests =
      [⟨"GET", "/companies", [("q", "undefined"), ("size", "50"), ("apikey", "k")],
        HS.hsHeaders, none⟩] ∧
    (∀ e, (HS.dispatch (some "k") "harmonic_search_companies" [] http).outcome =
        Except.error e → e.code ≠ ErrorCode.invalidParams) ∧
    HS.dispatch (some "k") "harmonic_set_api_key" [] http =
      ⟨some "k", [], [], Except.error ⟨ErrorCode.internalError,
        "Tool execution failed: " ++
          "Cannot read properties of undefined (reading \x27substring\x27)"⟩⟩ := by
  refine ⟨?_, ?_, rfl⟩
  · exact hs_runOp_requests "k" "/companies" "GET"
      [("q", "undefined"), ("size", "50")] http
  · intro e he
    rcases hs_runOp_outcome_error (some "k") "/companies" "GET"
        [("q", "undefined"), ("size", "50")] http e he with h' | h'
    · subst h'
      decide
    · rw [h'.1]
      decide

/-- Witness for C3: the error surfaced for a missing query under a network
failure carries the internal code, not the validation code. -/
theorem c3_witness :
    (⟨ErrorCode.internalError, "Tool execution failed: " ++
        ("Failed to make Harmonic API request: " ++ "boom")⟩ : McpError).code ≠
      ErrorCode.invalidParams :=
  (c3_missing_argument_behavior networkFailOracle).2.1 _ rfl

/-- C4 (counterexample): a cursor supplied as the empty string is dropped —
the outbound request of `harmonic_search_companies` carries no cursor
parameter even though a cursor argument was supplied, so pass-through is not
verbatim for every supplied cursor. -/
theorem c4_counterexample :
    (HS.dispatch (some "k") "harmonic_search_companies"
        [("query", JSVal.str "acme"), ("cursor", JSVal.str "")] constOkOracle).requests =
      [⟨"GET", "/companies", [("q", "acme"), ("size", "50"), ("apikey", "k")],
        HS.hsHeaders, none⟩] ∧
    ((HS.dispatch (some "k") "harmonic_search_companies"
        [("query", JSVal.str "acme"), ("cursor", JSVal.str "")] constOkOracle).requests.map
      fun r => r.queryParams.lookup "cursor") = [none] := by
  exact ⟨by decide, by decide⟩

/-- C4 (amended): for every list-style operation of `harmonic-server.js`, a
cursor supplied as a non-empty string appears verbatim as the request's
`cursor` parameter, and an omitted cursor produces a request with no `cursor`
parameter. -/
theorem c4_cursor_passthrough_nonempty (key q sid cid c : String)
    (http : HttpOracle) (hc : c ≠ "") :
    (HS.dispatch (some key) "harmonic_search_companies"
        [("query", JSVal.str q), ("cursor", JSVal.str c)] http).requests =
      [⟨"GET", "/companies", [("q", q), ("size", "50"), ("cursor", c), ("apikey", key)],
        HS.hsHeaders, none⟩] ∧
    (HS.dispatch (some key) "harmonic_search_people"
        [("query", JSVal.str q), ("cursor", JSVal.str c)] http).requests =
      [⟨"GET", "/people", [("q", q), ("size", "50"), ("cursor", c), ("apikey", key)],
        HS.hsHeaders, none⟩] ∧
    (HS.dispatch (some key) "harmonic_get_saved_search_results"
        [("search_id", JSVal.str sid), ("cursor", JSVal.str c)] http).requests =
      [⟨"GET", "/saved_searches:results/" ++ sid,
        [("size", "50"), ("cursor", c), ("apikey", key)], HS.hsHeaders, none⟩] ∧
    (HS.dispatch (some key) "harmonic_get_company_employees"
        [("company_id", JSVal.str cid), ("cursor", JSVal.str c)] http).requests =
      [⟨"GET", "/companies/" ++ cid ++ "/employees",
        [("size", "50"), ("cursor", c), ("apikey", key)], HS.hsHeaders, none⟩] ∧
    (HS.dispatch (some key) "harmonic_search_companies"
        [("query", JSVal.str q)] http).requests =
      [⟨"GET", "/companies", [("q", q), ("size", "50"), ("apikey", key)],
        HS.hsHeaders, none⟩] ∧
    (HS.dispatch (some key) "harmonic_search_people"
        [("query", JSVal.str q)] http).requests =
      [⟨"GET", "/people", [("q", q), ("size", "50"), ("apikey", key)],
        HS.hsHeaders, none⟩] ∧
    (HS.dispatch (some key) "harmonic_get_saved_search_results"
        [("search_id", JSVal.str sid)] http).requests =
      [⟨"GET", "/saved_searches:results/" ++ sid, [("size", "50"), ("apikey", key)],
        HS.hsHeaders, none⟩] ∧
    (HS.dispatch (some key) "harmonic_get_company_employees"
        [("company_id", JSVal.str cid)] http).requests =
      [⟨"GET", "/companies/" ++ cid ++ "/employees", [("size", "50"), ("apikey", key)],
        HS.hsHeaders, none⟩] := by
  have hceq : (c == "") = false := by
    simpa using hc
  refine ⟨?_, ?_, ?_, ?_, ?_, ?_, ?_, ?_⟩
  · show (HS.runOp (some key) "/companies" "GET"
        (HS.searchParams (some (JSVal.str q)) (JSVal.num 50) (some (JSVal.str c)))
        http).requests = _
    rw [hs_runOp_requests]
    simp [HS.searchParams, jsTruthy, jsToString_str, jsToString_num50, hceq]
  · show (HS.runOp (some key) "/people" "GET"
        (HS.searchParams (some (JSVal.str q)) (JSVal.num 50) (some (JSVal.str c)))
        http).requests = _
    rw [hs_runOp_requests]
    simp [HS.searchParams, jsTruthy, jsToString_str, jsToString_num50, hceq]
  · show (HS.runOp (some key) ("/saved_searches:results/" ++ sid) "GET"
        (HS.pagedParams (JSVal.num 50) (some (JSVal.str c))) http).requests = _
    rw [hs_runOp_requests]
    simp [HS.pagedParams, jsTruthy, jsToString_str, jsToString_num50, hceq]
  · show (HS.runOp (some key) ("/companies/" ++ cid ++ "/employees") "GET"
        (HS.pagedParams (JSVal.num 50) (some (JSVal.str c))) http).requests = _
    rw [hs_runOp_requests]
    simp [HS.pagedParams, jsTruthy, jsToString_str, jsToString_num50, hceq]
  · show (HS.runOp (some key) "/companies" "GET"
        (HS.searchParams (some (JSVal.str q)) (JSVal.num 50) none) http).requests = _
    rw [hs_runOp_requests]
    simp [HS.searchParams, jsTruthy, jsToString_str, jsToString_num50]
  · show (HS.runOp (some key) "/people" "GET"
        (HS.searchParams (some (JSVal.str q)) (JSVal.num 50) none) http).requests = _
    rw [hs_runOp_requests]
    simp [HS.searchParams, jsTruthy, jsToString_str, jsToString_num50]
  · show (HS.runOp (some key) ("/saved_searches:results/" ++ sid) "GET"
        (HS.pagedParams (JSVal.num 50) none) http).requests = _
    rw [hs_runOp_requests]
    simp [HS.pagedParams, jsTruthy, jsToString_num50]
  · show (HS.runOp (some key) ("/companies/" ++ cid ++ "/employees") "GET"
        (HS.pagedParams (JSVal.num 50) none) http).requests = _
    rw [hs_runOp_requests]
    simp [HS.pagedParams, jsTruthy, jsToString_num50]

/-- Witness for C4: a concrete non-empty cursor "cur" is passed through
verbatim. -/
theorem c4_witness :
    (HS.dispatch (some "k") "harmonic_search_companies"
        [("query", JSVal.str "a"), ("cursor", JSVal.str "cur")] constOkOracle).requests =
      [⟨"GET", "/companies", [("q", "a"), ("size", "50"), ("cursor", "cur"), ("apikey", "k")],
        HS.hsHeaders, none⟩] :=
  (c4_cursor_passthrough_nonempty "k" "a" "s" "c" "cur" constOkOracle (by decide)).1

/-- C5: `harmonic_set_api_key` with a string key always leaves the credential
slot holding exactly that key (from any prior state); calling it twice with
the same key produces the same result as once; calling it with k1 then k2
leaves exactly k2, and a subsequent operation sends k2 as its `apikey`
parameter. -/
theorem c5_set_api_key_idempotent_replaces (st : Option String)
    (k k1 k2 q : String) (http : HttpOracle) :
    (HS.dispatch st "harmonic_set_api_key" [("api_key", JSVal.str k)] http).newState =
      some k ∧
    HS.dispatch
        (HS.dispatch st "harmonic_set_api_key" [("api_key", JSVal.str k)] http).newState
        "harmonic_set_api_key" [("api_key", JSVal.str k)] http =
      HS.dispatch st "harmonic_set_api_key" [("api_key", JSVal.str k)] http ∧
    (HS.dispatch
        (HS.dispatch st "harmonic_set_api_key" [("api_key", JSVal.str k1)] http).newState
        "harmonic_set_api_key" [("api_key", JSVal.str k2)] http).newState = some k2 ∧
    ((HS.dispatch (some k2) "harmonic_search_companies" [("query", JSVal.str q)]
        http).requests.map fun r => r.queryParams.lookup "apikey") = [some k2] := by
  refine ⟨rfl, rfl, rfl, ?_⟩
  show ((HS.runOp (some k2) "/companies" "GET"
      (HS.searchParams (some (JSVal.str q)) (JSVal.num 50) none) http).requests.map
      fun r => r.queryParams.lookup "apikey") = [some k2]
  rw [hs_runOp_requests]
  simp [HS.searchParams, jsTruthy, jsToString_str, jsToString_num50, List.lookup]

/-- C6: any error surfaced by either dispatcher is one of the typed failures —
the precondition error, the unknown-tool error naming the offending tool, or
an `internalError` wrapping the original message behind the catch-block
prefix; no other error shape can escape. -/
theorem c6_unclassified_errors_wrapped (st : Option String) (name : String)
    (args : Args) (http : HttpOracle) (e : McpError)
    (h : (HS.dispatch st name args http).outcome = Except.error e ∨
         (SW.dispatch st name args http).outcome = Except.error e) :
    e = apiKeyNotSetError ∨
      (e.code = ErrorCode.methodNotFound ∧ e.message = "Unknown tool: " ++ name) ∨
      (e.code = ErrorCode.internalError ∧
        ∃ m, e.message = "Tool execution failed: " ++ m) := by
  rcases h with h | h
  · unfold HS.dispatch at h
    repeat' split at h
    · simp at h
    · simp at h
      subst h
      refine Or.inr (Or.inr ⟨rfl, "this.apiKey.substring is not a function", ?_⟩)
      decide
    · simp at h
      subst h
      refine Or.inr (Or.inr
        ⟨rfl, "Cannot read properties of undefined (reading \x27substring\x27)", ?_⟩)
      decide
    · exact (hs_runOp_outcome_error _ _ _ _ _ _ h).imp id Or.inr
    · exact (hs_runOp_outcome_error _ _ _ _ _ _ h).imp id Or.inr
    · exact (hs_runOp_outcome_error _ _ _ _ _ _ h).imp id Or.inr
    · exact (hs_runOp_outcome_error _ _ _ _ _ _ h).imp id Or.inr
    · exact (hs_runOp_outcome_error _ _ _ _ _ _ h).imp id Or.inr
    · simp at h
      subst h
      exact Or.inr (Or.inl ⟨rfl, rfl⟩)
  · unfold SW.dispatch at h
    repeat' split at h
    · simp at h
    · simp at h
      subst h
      refine Or.inr (Or.inr ⟨rfl, "this.apiKey.substring is not a function", ?_⟩)
      decide
    · simp at h
      subst h
      refine Or.inr (Or.inr
        ⟨rfl, "Cannot read properties of undefined (reading \x27substring\x27)", ?_⟩)
      decide
    · exact (sw_runOp_outcome_error _ _ _ _ h).imp id Or.inr
    · exact (sw_runOp_outcome_error _ _ _ _ h).imp id Or.inr
    · exact (sw_runOp_outcome_error _ _ _ _ h).imp id Or.inr
    · exact (sw_runOp_outcome_error _ _ _ _ h).imp id Or.inr
    · simp at h
      subst h
      exact Or.inl rfl
    · simp at h
    · simp at h
      subst h
      exact Or.inr (Or.inl ⟨rfl, rfl⟩)

/-- Witness for C6: the unknown-tool failure at a concrete invocation is one
of the typed failures. -/
theorem c6_witness :
    (⟨ErrorCode.methodNotFound, "Unknown tool: " ++ "bogus_tool"⟩ : McpError) =
        apiKeyNotSetError ∨
      ((⟨ErrorCode.methodNotFound, "Unknown tool: " ++ "bogus_tool"⟩ : McpError).code =
          ErrorCode.methodNotFound ∧
        (⟨ErrorCode.methodNotFound, "Unknown tool: " ++ "bogus_tool"⟩ : McpError).message =
          "Unknown tool: " ++ "bogus_tool") ∨
      ((⟨ErrorCode.methodNotFound, "Unknown tool: " ++ "bogus_tool"⟩ : McpError).code =
          ErrorCode.internalError ∧
        ∃ m, (⟨ErrorCode.methodNotFound,
            "Unknown tool: " ++ "bogus_tool"⟩ : McpError).message =
          "Tool execution failed: " ++ m) :=
  c6_unclassified_errors_wrapped none "bogus_tool" [] constOkOracle
    ⟨ErrorCode.methodNotFound, "Unknown tool: " ++ "bogus_tool"⟩ (Or.inl rfl)

/-- C7 (counterexample): the company-by-domain lookup of `harmonic-server.js`
is a POST whose body is empty — `website_domain` travels as a query parameter,
because the third argument of `makeRequest` is the query-parameter bag, so the
outbound request is not a POST with JSON body. -/
theorem c7_counterexample :
    (HS.dispatch (some "k") "harmonic_search_company_by_domain"
        [("domain", JSVal.str "harmonic.ai")] constOkOracle).requests =
      [⟨"POST", "/companies", [("website_domain", "harmonic.ai"), ("apikey", "k")],
        HS.hsHeaders, none⟩] ∧
    ((HS.dispatch (some "k") "harmonic_search_company_by_domain"
        [("domain", JSVal.str "harmonic.ai")] constOkOracle).requests.map
      Request.body) = [none] := by
  exact ⟨by decide, by decide⟩

/-- C7 (amended): the company-by-domain lookup issues a POST to `/companies`
carrying `website_domain` verbatim as a query parameter and no JSON body; and
no request this dispatcher ever issues has both query parameters and a body
populated (every body is empty). -/
theorem c7_domain_post_query_no_body (key domain : String) (http : HttpOracle) :
    (HS.dispatch (some key) "harmonic_search_company_by_domain"
        [("domain", JSVal.str domain)] http).requests =
      [⟨"POST", "/companies", [("website_domain", domain), ("apikey", key)],
        HS.hsHeaders, none⟩] ∧
    ∀ (st : Option String) (name : String) (args : Args) (r : Request),
      r ∈ (HS.dispatch st name args http).requests →
        r.body = none ∧ ¬(r.queryParams ≠ [] ∧ r.body ≠ none) := by
  constructor
  · show (HS.runOp (some key) "/companies" "POST"
        [("website_domain",
          jsToString (List.lookup "domain" [("domain", JSVal.str domain)]))]
        http).requests = _
    rw [hs_runOp_requests]
    simp [jsToString_str]
  · intro st name args r hr
    have hb := hs_dispatch_body_none st name args http r hr
    exact ⟨hb, by simp [hb]⟩

/-- Witness for C7: the concrete POST request has no body and hence not both
query parameters and a body. -/
theorem c7_witness :
    (⟨"POST", "/companies", [("website_domain", "harmonic.ai"), ("apikey", "k")],
        HS.hsHeaders, none⟩ : Request).body = none ∧
      ¬((⟨"POST", "/companies", [("website_domain", "harmonic.ai"), ("apikey", "k")],
          HS.hsHeaders, none⟩ : Request).queryParams ≠ [] ∧
        (⟨"POST", "/companies", [("website_domain", "harmonic.ai"), ("apikey", "k")],
          HS.hsHeaders, none⟩ : Request).body ≠ none) :=
  (c7_domain_post_query_no_body "k" "harmonic.ai" constOkOracle).2 (some "k")
    "harmonic_search_company_by_domain" [("domain", JSVal.str "harmonic.ai")] _
    (by decide)

/-- C8: evaluation at the failing input. With the key "SECRETKEY123", the
`harmonic-server.js` request log line contains the full raw key (inside the
`apikey=` query parameter of the logged URL), and the `server-with-state.js`
headers log line contains the full raw key — the credential is logged in
full, not only as a short prefix. -/
theorem c8_full_key_logged :
    (∃ line ∈ (HS.dispatch (some "SECRETKEY123") "harmonic_search_companies"
        [("query", JSVal.str "acme")] constOkOracle).logs,
      ∃ pre post, line = pre ++ "SECRETKEY123" ++ post) ∧
    (∃ line ∈ (SW.dispatch (some "SECRETKEY123") "harmonic_search_companies"
        [("query", JSVal.str "acme")] constOkOracle).logs,
      ∃ pre post, line = pre ++ "SECRETKEY123" ++ post) := by
  constructor
  · refine ⟨"[DEBUG] Making GET request to: https://api.harmonic.ai/companies?q=acme&size=50&apikey=SECRETKEY123",
      ?_,
      "[DEBUG] Making GET request to: https://api.harmonic.ai/companies?q=acme&size=50&apikey=",
      "", ?_⟩
    · decide
    · decide
  · refine ⟨"[DEBUG] Headers: \x7b\n  \"apikey\": \"SECRETKEY123\",\n  \"Content-Type\": \"application/json\",\n  \"website_domain\": \"harmonic.ai\"\n\x7d",
      ?_,
      "[DEBUG] Headers: \x7b\n  \"apikey\": \"",
      "\",\n  \"Content-Type\": \"application/json\",\n  \"website_domain\": \"harmonic.ai\"\n\x7d", ?_⟩
    · decide
    · decide

/-- C9: for every oracle, the connection probe in the authenticated state
issues exactly one request per hard-coded candidate path, in order, collects
exactly one record per path (each marked "success" or "failed"), and returns
a single successful Tool Result — no per-path failure aborts the probe or is
raised to the host. -/
theorem c9_probe_aggregates_all_paths (key : String) (http : HttpOracle) :
    (SW.dispatch (some key) "harmonic_test_connection" [] http).outcome =
      Except.ok ("Connection test results:\n" ++
        SW.renderProbeRecords (SW.probeRecords key http)) ∧
    (SW.dispatch (some key) "harmonic_test_connection" [] http).requests.map
        Request.endpoint = SW.testEndpoints ∧
    (SW.probeRecords key http).map SW.ProbeRecord.endpoint = SW.testEndpoints ∧
    (SW.probeRecords key http).length = SW.testEndpoints.length ∧
    ∀ r ∈ SW.probeRecords key http, r.status = "success" ∨ r.status = "failed" := by
  refine ⟨rfl, rfl, rfl, rfl, ?_⟩
  intro r hr
  rw [SW.probeRecords, List.mem_map] at hr
  obtain ⟨e, -, rfl⟩ := hr
  exact sw_probeRecord_status key e http

/-- Witness for C9: the record for the root path under an all-ok oracle. -/
theorem c9_witness :
    (SW.probeRecord "k" constOkOracle "/").status = "success" ∨
      (SW.probeRecord "k" constOkOracle "/").status = "failed" :=
  (c9_probe_aggregates_all_paths "k" constOkOracle).2.2.2.2 _ (by decide)

/-- C10: for every list-style operation of `harmonic-server.js`, supplying the
cursor argument as the empty string produces exactly the same dispatch result
(state, requests, logs and outcome) as omitting the cursor argument. -/
theorem c10_empty_cursor_equals_omitted (key q sid cid : String)
    (http : HttpOracle) :
    HS.dispatch (some key) "harmonic_search_companies"
        [("query", JSVal.str q), ("cursor", JSVal.str "")] http =
      HS.dispatch (some key) "harmonic_search_companies"
        [("query", JSVal.str q)] http ∧
    HS.dispatch (some key) "harmonic_search_people"
        [("query", JSVal.str q), ("cursor", JSVal.str "")] http =
      HS.dispatch (some key) "harmonic_search_people"
        [("query", JSVal.str q)] http ∧
    HS.dispatch (some key) "harmonic_get_saved_search_results"
        [("search_id", JSVal.str sid), ("cursor", JSVal.str "")] http =
      HS.dispatch (some key) "harmonic_get_saved_search_results"
        [("search_id", JSVal.str sid)] http ∧
    HS.dispatch (some key) "harmonic_get_company_employees"
        [("company_id", JSVal.str cid), ("cursor", JSVal.str "")] http =
      HS.dispatch (some key) "harmonic_get_company_employees"
        [("company_id", JSVal.str cid)] http :=
  ⟨rfl, rfl, rfl, rfl⟩
